import Mathlib

/-!
Shallow embedding of `lib/posix/eventfd.c` (Zephyr eventfd): the event
object state, the read (drain) and write (post) protocols, the ioctl
control operations and the poll prepare/update readiness adapter.

Machine integers are modelled as `Nat` with explicit bounds where the C
width matters (`eventfd_t` is `uint64_t`, `initval` is `unsigned int`).
The two `k_sem` wake semaphores both have limit 1 in the C code
(`k_sem_init(..., 1)`), so their counts live in `{0, 1}` and the limited
give saturates at 1.  Blocking paths (`k_sem_take(..., K_FOREVER)`)
surface as an explicit `block` outcome of the single-threaded step
function.
-/

/-- Modelled from the spec: the flag constants come from
`posix/sys/eventfd.h`, which is not part of the sources; the spec lists
three independent mode-flag booleans (`inUse`, `semaphoreMode`,
`nonBlocking`), so each is modelled as a distinct bit. -/
def EFD_IN_USE : Nat := 1

/-- Modelled from the spec: semaphore-mode flag bit (read consumes exactly
one unit instead of draining the counter). -/
def EFD_SEMAPHORE : Nat := 2

/-- Modelled from the spec: non-blocking mode flag bit (operations fail
fast instead of suspending). -/
def EFD_NONBLOCK : Nat := 4

/-- Modelled from the spec: the recognized mode-flag set validated by
`eventfd()` and `F_SETFL`.  The spec's `create` accepts exactly the flags
`{nonBlocking?, semaphoreMode?}`, and `eventfd()` validates its `flags`
argument against this same constant before OR-ing in `EFD_IN_USE`, so the
set holds the two user-settable mode bits and not the allocation bit. -/
def EFD_FLAGS_SET : Nat := EFD_SEMAPHORE ||| EFD_NONBLOCK

/-- The reserved sentinel: `UINT64_MAX`, all 64 bits set. -/
def UINT64_MAX : Nat := 18446744073709551615

/-- `sizeof(eventfd_t)`: 8 bytes. -/
def eventfd_t_size : Nat := 8

/-- Modelled from the spec: numeric errno codes (`errno.h` is not in the
sources); only distinctness matters.  `EINVAL` is `InvalidArgument`. -/
def EINVAL : Nat := 22

/-- Modelled from the spec: `EAGAIN` is `WouldBlock`. -/
def EAGAIN : Nat := 11

/-- Modelled from the spec: `ENOMEM` is `NoCapacity`. -/
def ENOMEM : Nat := 12

/-- Modelled from the spec: `EOPNOTSUPP` is `NotSupported`. -/
def EOPNOTSUPP : Nat := 95

/-- Modelled from the spec: poll interest/result bits from `net/socket.h`
(not in the sources); distinct bits for read interest and write
interest. -/
def ZSOCK_POLLIN : Nat := 1

/-- Modelled from the spec: write-interest / write-ready poll bit. -/
def ZSOCK_POLLOUT : Nat := 4

/-- Modelled from the spec: the wait-slot state meaning "not-ready"; any
other state value means the slot resolved. -/
def K_POLL_STATE_NOT_READY : Nat := 0

/-- Modelled from the spec: the wait-slot type bound by poll-prepare
(await availability of the read semaphore). -/
def K_POLL_TYPE_SEM_AVAILABLE : Nat := 1

/-- Modelled from the spec: notify-only wait mode constant. -/
def K_POLL_MODE_NOTIFY_ONLY : Nat := 0

/-- Bitwise complement of a C `int` flag word (32 bits wide on the
targets at hand), as used by `flags & ~EFD_FLAGS_SET`. -/
def int_not (x : Nat) : Nat := 4294967295 ^^^ x

/-- `k_sem_take(sem, K_NO_WAIT)` on a semaphore count: decrement if
available, otherwise leave at zero (the C return value is ignored at the
one call site). -/
def k_sem_take_nowait (s : Nat) : Nat := s - 1

/-- `k_sem_give` on a limit-1 semaphore: increment, saturating at the
limit (both eventfd semaphores are inited with limit 1). -/
def k_sem_give (s : Nat) : Nat := min (s + 1) 1

/-- `struct eventfd`: the two wake semaphores (counts), the 64-bit
counter and the flag word.  The guard mutex has no content in the
single-threaded model. -/
structure Eventfd where
  read_sem : Nat
  write_sem : Nat
  cnt : Nat
  flags : Nat
deriving DecidableEq

/-- Outcome of `eventfd_read_op`: success carries the value stored to the
buffer, the byte count returned and the post state; failure carries the
errno and the post state; `block` is the state at which the C code parks
on `k_sem_take(&read_sem, K_FOREVER)`. -/
inductive ReadResult where
  | ok (value : Nat) (bytes : Nat) (efd : Eventfd)
  | err (errno : Nat) (efd : Eventfd)
  | block (efd : Eventfd)
deriving DecidableEq

/-- Outcome of `eventfd_write_op`. -/
inductive WriteResult where
  | ok (bytes : Nat) (efd : Eventfd)
  | err (errno : Nat) (efd : Eventfd)
  | block (efd : Eventfd)
deriving DecidableEq

/-- `eventfd_read_op(obj, buf, sz)`.  The C loop runs at most once before
either returning, failing, or parking on the read semaphore, so it is
rendered as one pass with a `block` outcome for the parking path. -/
def eventfd_read_op (efd : Eventfd) (sz : Nat) : ReadResult :=
  let nonblock := efd.flags &&& EFD_NONBLOCK ≠ 0
  if sz < eventfd_t_size then
    .err EINVAL efd
  else
    -- Reset the read_sem unconditionally (k_sem_take with K_NO_WAIT).
    let efd := { efd with read_sem := k_sem_take_nowait efd.read_sem }
    if efd.cnt = 0 then
      if nonblock then .err EAGAIN efd else .block efd
    else
      let count := if efd.flags &&& EFD_SEMAPHORE ≠ 0 then 1 else efd.cnt
      let cnt' := efd.cnt - count
      let efd := { efd with
        cnt := cnt',
        read_sem := if cnt' ≠ 0 then k_sem_give efd.read_sem else efd.read_sem }
      -- Give write_sem outside of the mutex (runs when result == 0).
      let efd := { efd with write_sem := k_sem_give efd.write_sem }
      .ok count eventfd_t_size efd

/-- `eventfd_write_op(obj, buf, sz)` where `count` is the 8-byte value
read from the buffer.  Note that the C code reaches
`k_sem_give(&efd->read_sem)` on the non-blocking EAGAIN path as well
(`repeat` is false there), which the embedding reproduces. -/
def eventfd_write_op (efd : Eventfd) (sz : Nat) (count : Nat) : WriteResult :=
  let nonblock := efd.flags &&& EFD_NONBLOCK ≠ 0
  if sz < eventfd_t_size then
    .err EINVAL efd
  else if count = UINT64_MAX then
    .err EINVAL efd
  else if count = 0 then
    .ok eventfd_t_size efd
  else
    let overflow := UINT64_MAX - count ≤ efd.cnt
    if overflow then
      if nonblock then
        .err EAGAIN { efd with read_sem := k_sem_give efd.read_sem }
      else
        .block efd
    else
      let efd := { efd with cnt := efd.cnt + count }
      .ok eventfd_t_size { efd with read_sem := k_sem_give efd.read_sem }

/-- `struct zsock_pollfd`: the interest mask and the reported-events
mask (the fd number is irrelevant to the eventfd operations). -/
structure Pollfd where
  events : Nat
  revents : Nat
deriving DecidableEq

/-- `struct k_poll_event`, restricted to the fields the eventfd code
touches; `obj_is_read_sem` renders the `obj = &efd->read_sem` binding. -/
structure PollEvent where
  obj_is_read_sem : Bool
  type : Nat
  mode : Nat
  state : Nat
deriving DecidableEq

/-- `eventfd_poll_prepare`: on read interest, claim the next wait slot
(`ENOMEM` when the cursor is at the end) and bind it to the read
semaphore in not-ready state; write interest claims nothing. -/
def eventfd_poll_prepare (efd : Eventfd) (pfd : Pollfd)
    (pev : List PollEvent) (cursor : Nat) :
    Except Nat (List PollEvent × Nat) :=
  if pfd.events &&& ZSOCK_POLLIN ≠ 0 then
    if cursor = pev.length then
      .error ENOMEM
    else
      .ok (pev.set cursor
        { obj_is_read_sem := true
          type := K_POLL_TYPE_SEM_AVAILABLE
          mode := K_POLL_MODE_NOTIFY_ONLY
          state := K_POLL_STATE_NOT_READY }, cursor + 1)
  else
    .ok (pev, cursor)

/-- The placeholder wait slot used when the cursor is out of range (the C
code relies on the poll engine keeping the cursor in bounds). -/
def pollEventDefault : PollEvent :=
  { obj_is_read_sem := false
    type := 0
    mode := 0
    state := K_POLL_STATE_NOT_READY }

/-- `eventfd_poll_update`: write interest is reported unconditionally;
for read interest the slot under the cursor is consulted (ready when its
state differs from not-ready) and the cursor moves past it. -/
def eventfd_poll_update (efd : Eventfd) (pfd : Pollfd)
    (pev : List PollEvent) (cursor : Nat) : Pollfd × Nat :=
  let pfd :=
    if pfd.events &&& ZSOCK_POLLOUT ≠ 0 then
      { pfd with revents := pfd.revents ||| ZSOCK_POLLOUT }
    else pfd
  if pfd.events &&& ZSOCK_POLLIN ≠ 0 then
    let pfd :=
      if (pev.getD cursor pollEventDefault).state ≠ K_POLL_STATE_NOT_READY then
        { pfd with revents := pfd.revents ||| ZSOCK_POLLIN }
      else pfd
    (pfd, cursor + 1)
  else
    (pfd, cursor)

/-- An ioctl request, as the tagged rendering of the C
`(request, va_list)` pair: each variant carries exactly the arguments the
corresponding `case` pulls from the `va_list`. -/
inductive IoctlRequest where
  | f_getfl
  | f_setfl (flags : Nat)
  | close
  | pollPrepare (pfd : Pollfd) (pev : List PollEvent) (cursor : Nat)
  | pollUpdate (pfd : Pollfd) (pev : List PollEvent) (cursor : Nat)
  | unrecognized
deriving DecidableEq

/-- Outcome of `eventfd_ioctl_op`: a plain return value, a poll outcome
carrying the updated pollfd/slot array/cursor, or an errno; each carries
the post state of the object. -/
inductive IoctlResult where
  | ok (ret : Nat) (efd : Eventfd)
  | okPoll (efd : Eventfd) (pfd : Pollfd) (pev : List PollEvent) (cursor : Nat)
  | err (errno : Nat) (efd : Eventfd)
deriving DecidableEq

/-- `eventfd_ioctl_op`: F_GETFL masks the flags with the recognized set;
F_SETFL validates the new flags against the recognized set and then
assigns them wholesale; ZFD_IOCTL_CLOSE zeroes the flags (returning the
slot to the pool); the two poll requests route to the adapter; anything
else is EOPNOTSUPP. -/
def eventfd_ioctl_op (efd : Eventfd) (req : IoctlRequest) : IoctlResult :=
  match req with
  | .f_getfl => .ok (efd.flags &&& EFD_FLAGS_SET) efd
  | .f_setfl flags =>
      if flags &&& int_not EFD_FLAGS_SET ≠ 0 then
        .err EINVAL efd
      else
        .ok 0 { efd with flags := flags }
  | .close => .ok 0 { efd with flags := 0 }
  | .pollPrepare pfd pev cursor =>
      match eventfd_poll_prepare efd pfd pev cursor with
      | .error e => .err e efd
      | .ok (pev', cursor') => .okPoll efd pfd pev' cursor'
  | .pollUpdate pfd pev cursor =>
      let (pfd', cursor') := eventfd_poll_update efd pfd pev cursor
      .okPoll efd pfd' pev cursor'
  | .unrecognized => .err EOPNOTSUPP efd

/-- The per-slot effect of a successful `eventfd(initval, flags)` call:
flags become `EFD_IN_USE | flags`, the counter takes the initial value,
the read semaphore starts at 1 exactly when the counter is nonzero
(`seminit = efd->cnt != 0`), the write semaphore starts at 0. -/
def eventfd_init_obj (initval : Nat) (flags : Nat) : Eventfd :=
  { read_sem := if initval ≠ 0 then 1 else 0
    write_sem := 0
    cnt := initval
    flags := EFD_IN_USE ||| flags }

/-- `eventfd(initval, flags)` restricted to one slot: `none` exactly when
the flags validation (`flags & ~EFD_FLAGS_SET`) fails with EINVAL,
otherwise the freshly claimed object. -/
def eventfd_create (initval : Nat) (flags : Nat) : Option Eventfd :=
  if flags &&& int_not EFD_FLAGS_SET ≠ 0 then
    none
  else
    some (eventfd_init_obj initval flags)

/-- The slot-is-free test used by the allocation scan in `eventfd()`:
`!(efds[i].flags & EFD_IN_USE)`. -/
def eventfd_slot_free (efd : Eventfd) : Bool := efd.flags &&& EFD_IN_USE = 0

/-- Post state of a read outcome. -/
def ReadResult.state : ReadResult → Eventfd
  | .ok _ _ efd => efd
  | .err _ efd => efd
  | .block efd => efd

/-- Value stored to the caller's buffer by a successful read. -/
def ReadResult.value? : ReadResult → Option Nat
  | .ok v _ _ => some v
  | _ => none

/-- Byte count returned by a successful read. -/
def ReadResult.bytes? : ReadResult → Option Nat
  | .ok _ b _ => some b
  | _ => none

/-- Errno of a failed read. -/
def ReadResult.errno? : ReadResult → Option Nat
  | .err e _ => some e
  | _ => none

/-- Post state of a write outcome. -/
def WriteResult.state : WriteResult → Eventfd
  | .ok _ efd => efd
  | .err _ efd => efd
  | .block efd => efd

/-- Byte count returned by a successful write. -/
def WriteResult.bytes? : WriteResult → Option Nat
  | .ok b _ => some b
  | _ => none

/-- Errno of a failed write. -/
def WriteResult.errno? : WriteResult → Option Nat
  | .err e _ => some e
  | _ => none

/-- Post state of an ioctl outcome. -/
def IoctlResult.state : IoctlResult → Eventfd
  | .ok _ efd => efd
  | .okPoll efd _ _ _ => efd
  | .err _ efd => efd

/-- One observable transition of an event object: a read attempt, a write
attempt of an 8-byte value, or a control operation.  Failed and parked
attempts are transitions too (they may touch the semaphores). -/
inductive Step : Eventfd → Eventfd → Prop where
  | read (efd : Eventfd) (sz : Nat) :
      Step efd (eventfd_read_op efd sz).state
  | write (efd : Eventfd) (sz count : Nat) (hcount : count < 2 ^ 64) :
      Step efd (eventfd_write_op efd sz count).state
  | ioctl (efd : Eventfd) (req : IoctlRequest) :
      Step efd (eventfd_ioctl_op efd req).state

/-- States reachable from a successful `eventfd()` call (`initval` is a C
`unsigned int`) by any sequence of read, write and control operations. -/
inductive Reachable : Eventfd → Prop where
  | create (initval flags : Nat) (efd : Eventfd)
      (hinit : initval < 4294967296)
      (hcreate : eventfd_create initval flags = some efd) :
      Reachable efd
  | step (efd efd' : Eventfd) :
      Reachable efd → Step efd efd' → Reachable efd'

/-- C1: a valid SetFlags request on a freshly created (in-use) object
succeeds, but the wholesale flag assignment clears `EFD_IN_USE`: the
object then tests as free to the allocation scan even though Close was
never invoked. -/
theorem setfl_clears_in_use :
    eventfd_ioctl_op (eventfd_init_obj 0 0) (.f_setfl 0) =
      .ok 0 { read_sem := 0, write_sem := 0, cnt := 0, flags := 0 } ∧
    eventfd_slot_free (eventfd_init_obj 0 0) = false ∧
    eventfd_slot_free (eventfd_ioctl_op (eventfd_init_obj 0 0) (.f_setfl 0)).state = true := by
  decide

/-- C6: a successful create sets the counter to the requested initial
value, pre-asserts the read semaphore exactly when that value is
nonzero, and leaves the write semaphore cleared. -/
theorem create_initial_state (initval flags : Nat) (efd : Eventfd)
    (hok : eventfd_create initval flags = some efd) :
    efd.cnt = initval ∧
    efd.read_sem = (if initval ≠ 0 then 1 else 0) ∧
    efd.write_sem = 0 := by
  unfold eventfd_create at hok
  split at hok
  · simp at hok
  · injection hok with h
    subst h
    simp [eventfd_init_obj]

/-- Witness for C6 at `eventfd(5, EFD_SEMAPHORE | EFD_NONBLOCK)`. -/
theorem create_initial_state_witness :
    (eventfd_init_obj 5 6).cnt = 5 ∧
    (eventfd_init_obj 5 6).read_sem = (if (5 : Nat) ≠ 0 then 1 else 0) ∧
    (eventfd_init_obj 5 6).write_sem = 0 :=
  create_initial_state 5 6 (eventfd_init_obj 5 6) (by decide)

/-- C7: writing the value 0 through a big-enough buffer succeeds with 8
bytes and returns the object completely unchanged: counter, flags and
both semaphores are untouched. -/
theorem write_zero_noop (efd : Eventfd) (sz : Nat)
    (hsz : eventfd_t_size ≤ sz) :
    eventfd_write_op efd sz 0 = .ok eventfd_t_size efd := by
  unfold eventfd_write_op
  simp [Nat.not_lt.mpr hsz, UINT64_MAX]

/-- Witness for C7 at a concrete object and buffer size. -/
theorem write_zero_noop_witness :
    eventfd_write_op (eventfd_init_obj 3 0) 8 0 =
      .ok eventfd_t_size (eventfd_init_obj 3 0) :=
  write_zero_noop (eventfd_init_obj 3 0) 8 (by decide)

/-- C8: reads and writes through a buffer shorter than 8 bytes fail with
EINVAL, writing the reserved sentinel fails with EINVAL, and every
successful read or write reports exactly 8 bytes. -/
theorem size_and_sentinel_checks :
    (∀ efd sz, sz < eventfd_t_size →
       eventfd_read_op efd sz = .err EINVAL efd) ∧
    (∀ efd sz count, sz < eventfd_t_size →
       eventfd_write_op efd sz count = .err EINVAL efd) ∧
    (∀ efd sz, eventfd_write_op efd sz UINT64_MAX = .err EINVAL efd) ∧
    (∀ efd sz v b efd', eventfd_read_op efd sz = .ok v b efd' →
       b = eventfd_t_size) ∧
    (∀ efd sz count b efd', eventfd_write_op efd sz count = .ok b efd' →
       b = eventfd_t_size) := by
  refine ⟨?_, ?_, ?_, ?_, ?_⟩
  · intro efd sz h
    unfold eventfd_read_op
    simp [h]
  · intro efd sz count h
    unfold eventfd_write_op
    simp [h]
  · intro efd sz
    simp only [eventfd_write_op]
    split
    · rfl
    · simp
  · intro efd sz v b efd' h
    simp only [eventfd_read_op] at h
    split at h
    · exact ReadResult.noConfusion h
    · split at h
      · split at h
        · exact ReadResult.noConfusion h
        · exact ReadResult.noConfusion h
      · injection h with h1 h2 h3
        exact h2.symm
  · intro efd sz count b efd' h
    simp only [eventfd_write_op] at h
    split at h
    · exact WriteResult.noConfusion h
    · split at h
      · exact WriteResult.noConfusion h
      · split at h
        · injection h with h1 h2
          exact h1.symm
        · split at h
          · split at h
            · exact WriteResult.noConfusion h
            · exact WriteResult.noConfusion h
          · injection h with h1 h2
            exact h1.symm

/-- Witness for C8: the short-buffer failures, the sentinel-write
failure, and the 8-byte success reports at concrete inputs. -/
theorem size_and_sentinel_checks_witness :
    eventfd_read_op (eventfd_init_obj 0 0) 4 = .err EINVAL (eventfd_init_obj 0 0) ∧
    eventfd_write_op (eventfd_init_obj 0 0) 4 1 = .err EINVAL (eventfd_init_obj 0 0) ∧
    eventfd_write_op (eventfd_init_obj 0 0) 8 UINT64_MAX = .err EINVAL (eventfd_init_obj 0 0) ∧
    (8 : Nat) = eventfd_t_size := by
  refine ⟨?_, ?_, ?_, ?_⟩
  · exact size_and_sentinel_checks.1 (eventfd_init_obj 0 0) 4 (by decide)
  · exact size_and_sentinel_checks.2.1 (eventfd_init_obj 0 0) 4 1 (by decide)
  · exact size_and_sentinel_checks.2.2.1 (eventfd_init_obj 0 0) 8
  · exact size_and_sentinel_checks.2.2.2.1 (eventfd_init_obj 5 0) 8 5 8
      { read_sem := 0, write_sem := 1, cnt := 0, flags := 1 } (by decide)

/-- C10: whenever a read or a write fails with an errno, the returned
post state keeps the counter and the flag word of the pre state (only
the wake semaphores may differ). -/
theorem failure_preserves_counter_and_flags :
    (∀ efd sz e s, eventfd_read_op efd sz = .err e s →
       s.cnt = efd.cnt ∧ s.flags = efd.flags) ∧
    (∀ efd sz count e s, eventfd_write_op efd sz count = .err e s →
       s.cnt = efd.cnt ∧ s.flags = efd.flags) := by
  constructor
  · intro efd sz e s h
    simp only [eventfd_read_op] at h
    split at h
    · injection h with h1 h2
      subst h2
      exact ⟨rfl, rfl⟩
    · split at h
      · split at h
        · injection h with h1 h2
          subst h2
          exact ⟨rfl, rfl⟩
        · exact ReadResult.noConfusion h
      · exact ReadResult.noConfusion h
  · intro efd sz count e s h
    simp only [eventfd_write_op] at h
    split at h
    · injection h with h1 h2
      subst h2
      exact ⟨rfl, rfl⟩
    · split at h
      · injection h with h1 h2
        subst h2
        exact ⟨rfl, rfl⟩
      · split at h
        · exact WriteResult.noConfusion h
        · split at h
          · split at h
            · injection h with h1 h2
              subst h2
              exact ⟨rfl, rfl⟩
            · exact WriteResult.noConfusion h
          · exact WriteResult.noConfusion h

/-- Witness for C10 at a concrete EAGAIN read failure (the nonblocking
read on an empty object also resets the read semaphore, so the full
state is not preserved, but the counter and flags are). -/
theorem failure_preserves_counter_and_flags_witness :
    (⟨0, 0, 0, 5⟩ : Eventfd).cnt = (eventfd_init_obj 0 EFD_NONBLOCK).cnt ∧
    (⟨0, 0, 0, 5⟩ : Eventfd).flags = (eventfd_init_obj 0 EFD_NONBLOCK).flags :=
  failure_preserves_counter_and_flags.1 (eventfd_init_obj 0 EFD_NONBLOCK) 8
    EAGAIN ⟨0, 0, 0, 5⟩ (by decide)

/-- C2: in default (non-semaphore) mode a successful read on a nonzero
counter returns exactly that counter value and zeroes the counter; in
particular a nonzero write into an empty object followed by a read hands
the written value back, and a read straight after a create with nonzero
initial value hands the initial value back, in both cases leaving the
counter at zero. -/
theorem default_read_drains :
    (∀ efd sz, eventfd_t_size ≤ sz → efd.flags &&& EFD_SEMAPHORE = 0 →
       efd.cnt ≠ 0 →
       (eventfd_read_op efd sz).value? = some efd.cnt ∧
       (eventfd_read_op efd sz).state.cnt = 0) ∧
    (∀ efd sz v, eventfd_t_size ≤ sz → efd.flags &&& EFD_SEMAPHORE = 0 →
       efd.cnt = 0 → v ≠ 0 → v < UINT64_MAX →
       (eventfd_read_op (eventfd_write_op efd sz v).state sz).value? = some v ∧
       (eventfd_read_op (eventfd_write_op efd sz v).state sz).state.cnt = 0) ∧
    (∀ initval flags efd sz, eventfd_t_size ≤ sz →
       eventfd_create initval flags = some efd →
       efd.flags &&& EFD_SEMAPHORE = 0 → initval ≠ 0 →
       (eventfd_read_op efd sz).value? = some initval ∧
       (eventfd_read_op efd sz).state.cnt = 0) := by
  have hread : ∀ efd sz, eventfd_t_size ≤ sz → efd.flags &&& EFD_SEMAPHORE = 0 →
      efd.cnt ≠ 0 →
      (eventfd_read_op efd sz).value? = some efd.cnt ∧
      (eventfd_read_op efd sz).state.cnt = 0 := by
    intro efd sz hsz hsem hc
    simp only [eventfd_read_op, Nat.not_lt.mpr hsz, if_false, hsem, hc]
    simp [ReadResult.value?, ReadResult.state]
  refine ⟨hread, ?_, ?_⟩
  · intro efd sz v hsz hsem hc hv hvmax
    have hwr : eventfd_write_op efd sz v =
        .ok eventfd_t_size
          ({ read_sem := k_sem_give efd.read_sem, write_sem := efd.write_sem,
             cnt := efd.cnt + v, flags := efd.flags } : Eventfd) := by
      simp only [eventfd_write_op, Nat.not_lt.mpr hsz, if_false]
      rw [if_neg (Nat.ne_of_lt hvmax), if_neg hv, if_neg]
      omega
    have hflags : (eventfd_write_op efd sz v).state.flags = efd.flags := by
      rw [hwr]
      rfl
    have hcnt : (eventfd_write_op efd sz v).state.cnt = v := by
      rw [hwr]
      simp [WriteResult.state, hc]
    have h2 := hread ((eventfd_write_op efd sz v).state) sz hsz
      (by rw [hflags]; exact hsem) (by rw [hcnt]; exact hv)
    rw [hcnt] at h2
    exact h2
  · intro initval flags efd sz hsz hok hsem hinit
    have hcnt : efd.cnt = initval := by
      unfold eventfd_create at hok
      split at hok
      · simp at hok
      · injection hok with h
        subst h
        rfl
    rw [← hcnt]
    exact hread efd sz hsz hsem (by rw [hcnt]; exact hinit)

/-- Witness for C2: the three parts applied at `Create(5, 0)`, at
`Write(5)` into `Create(0, 0)` followed by a read, and at a read
straight after `Create(5, 0)`. -/
theorem default_read_drains_witness :
    ((eventfd_read_op (eventfd_init_obj 5 0) 8).value? = some (eventfd_init_obj 5 0).cnt ∧
     (eventfd_read_op (eventfd_init_obj 5 0) 8).state.cnt = 0) ∧
    ((eventfd_read_op (eventfd_write_op (eventfd_init_obj 0 0) 8 5).state 8).value? = some 5 ∧
     (eventfd_read_op (eventfd_write_op (eventfd_init_obj 0 0) 8 5).state 8).state.cnt = 0) ∧
    ((eventfd_read_op (eventfd_init_obj 5 0) 8).value? = some 5 ∧
     (eventfd_read_op (eventfd_init_obj 5 0) 8).state.cnt = 0) := by
  refine ⟨?_, ?_, ?_⟩
  · exact default_read_drains.1 (eventfd_init_obj 5 0) 8 (by decide) (by decide) (by decide)
  · exact default_read_drains.2.1 (eventfd_init_obj 0 0) 8 5 (by decide) (by decide)
      (by decide) (by decide) (by decide)
  · exact default_read_drains.2.2 5 0 (eventfd_init_obj 5 0) 8 (by decide) (by decide)
      (by decide) (by decide)

/-- C3: in semaphore mode every successful read on a nonzero counter
returns exactly 1 and decrements the counter by one; concretely, after
`Write(3)` into a fresh nonblocking semaphore-mode object, three reads
in a row return 1 each and a fourth fails with EAGAIN. -/
theorem semaphore_read_unit :
    (∀ efd sz, eventfd_t_size ≤ sz → efd.flags &&& EFD_SEMAPHORE ≠ 0 →
       efd.cnt ≠ 0 →
       (eventfd_read_op efd sz).value? = some 1 ∧
       (eventfd_read_op efd sz).state.cnt = efd.cnt - 1) ∧
    ((eventfd_read_op (eventfd_write_op
        (eventfd_init_obj 0 (EFD_SEMAPHORE ||| EFD_NONBLOCK)) 8 3).state 8).value? = some 1 ∧
     (eventfd_read_op (eventfd_read_op (eventfd_write_op
        (eventfd_init_obj 0 (EFD_SEMAPHORE ||| EFD_NONBLOCK)) 8 3).state 8).state 8).value? = some 1 ∧
     (eventfd_read_op (eventfd_read_op (eventfd_read_op (eventfd_write_op
        (eventfd_init_obj 0 (EFD_SEMAPHORE ||| EFD_NONBLOCK)) 8 3).state 8).state 8).state 8).value? = some 1 ∧
     (eventfd_read_op (eventfd_read_op (eventfd_read_op (eventfd_read_op (eventfd_write_op
        (eventfd_init_obj 0 (EFD_SEMAPHORE ||| EFD_NONBLOCK)) 8 3).state 8).state 8).state 8).state 8).errno? = some EAGAIN) := by
  constructor
  · intro efd sz hsz hsem hc
    simp only [eventfd_read_op, Nat.not_lt.mpr hsz, if_false, hsem, hc]
    simp [ReadResult.value?, ReadResult.state, hsem]
  · decide

/-- Witness for C3 at a semaphore-mode object with counter 3. -/
theorem semaphore_read_unit_witness :
    (eventfd_read_op (eventfd_init_obj 3 EFD_SEMAPHORE) 8).value? = some 1 ∧
    (eventfd_read_op (eventfd_init_obj 3 EFD_SEMAPHORE) 8).state.cnt =
      (eventfd_init_obj 3 EFD_SEMAPHORE).cnt - 1 :=
  semaphore_read_unit.1 (eventfd_init_obj 3 EFD_SEMAPHORE) 8 (by decide) (by decide) (by decide)

/-- C4: with non-blocking mode set and a legal nonzero write value `v`,
the write fails with EAGAIN exactly when `UINT64_MAX - v ≤ counter`
(overflow, boundary included), and otherwise succeeds, adding `v` to the
counter and reporting 8 bytes. -/
theorem nonblocking_write_overflow (efd : Eventfd) (sz v : Nat)
    (hsz : eventfd_t_size ≤ sz) (hnb : efd.flags &&& EFD_NONBLOCK ≠ 0)
    (hv : v ≠ 0) (hvmax : v < UINT64_MAX) :
    ((eventfd_write_op efd sz v).errno? = some EAGAIN ↔
      UINT64_MAX - v ≤ efd.cnt) ∧
    (¬ UINT64_MAX - v ≤ efd.cnt →
      (eventfd_write_op efd sz v).bytes? = some eventfd_t_size ∧
      (eventfd_write_op efd sz v).state.cnt = efd.cnt + v) := by
  simp only [eventfd_write_op, Nat.not_lt.mpr hsz, if_false, hnb,
    Nat.ne_of_lt hvmax, hv]
  by_cases hov : UINT64_MAX - v ≤ efd.cnt
  · simp [hov, hnb, WriteResult.errno?]
  · simp [hov, hnb, WriteResult.errno?, WriteResult.bytes?, WriteResult.state]

/-- Witness for C4 at the exact boundary `Create(5, EFD_NONBLOCK)` and
`Write(UINT64_MAX - 5)`. -/
theorem nonblocking_write_overflow_witness :
    ((eventfd_write_op (eventfd_init_obj 5 EFD_NONBLOCK) 8 (UINT64_MAX - 5)).errno? =
        some EAGAIN ↔
      UINT64_MAX - (UINT64_MAX - 5) ≤ (eventfd_init_obj 5 EFD_NONBLOCK).cnt) ∧
    (¬ UINT64_MAX - (UINT64_MAX - 5) ≤ (eventfd_init_obj 5 EFD_NONBLOCK).cnt →
      (eventfd_write_op (eventfd_init_obj 5 EFD_NONBLOCK) 8 (UINT64_MAX - 5)).bytes? =
          some eventfd_t_size ∧
      (eventfd_write_op (eventfd_init_obj 5 EFD_NONBLOCK) 8 (UINT64_MAX - 5)).state.cnt =
        (eventfd_init_obj 5 EFD_NONBLOCK).cnt + (UINT64_MAX - 5)) :=
  nonblocking_write_overflow (eventfd_init_obj 5 EFD_NONBLOCK) 8 (UINT64_MAX - 5)
    (by decide) (by decide) (by decide) (by decide)

/-- C9: with a clean reported-events mask, poll-update reports
write-ready exactly when write interest was requested (independent of
the counter), and under read interest it reports read-ready exactly when
the wait slot under the cursor resolved to a state other than not-ready,
moving the cursor one slot forward. -/
theorem poll_update_readiness (efd : Eventfd) (pfd : Pollfd)
    (pev : List PollEvent) (cursor : Nat) (h0 : pfd.revents = 0) :
    ((eventfd_poll_update efd pfd pev cursor).1.revents &&& ZSOCK_POLLOUT ≠ 0 ↔
       pfd.events &&& ZSOCK_POLLOUT ≠ 0) ∧
    (pfd.events &&& ZSOCK_POLLIN ≠ 0 →
       (((eventfd_poll_update efd pfd pev cursor).1.revents &&& ZSOCK_POLLIN ≠ 0) ↔
          (pev.getD cursor pollEventDefault).state ≠ K_POLL_STATE_NOT_READY) ∧
       (eventfd_poll_update efd pfd pev cursor).2 = cursor + 1) := by
  by_cases hout : pfd.events &&& ZSOCK_POLLOUT = 0 <;>
    by_cases hin : pfd.events &&& ZSOCK_POLLIN = 0 <;>
      by_cases hst : (pev.getD cursor pollEventDefault).state = K_POLL_STATE_NOT_READY <;>
        simp_all [eventfd_poll_update, ZSOCK_POLLIN, ZSOCK_POLLOUT, K_POLL_STATE_NOT_READY]

/-- Witness for C9 with both interests requested and a resolved slot. -/
theorem poll_update_readiness_witness :
    ((eventfd_poll_update (eventfd_init_obj 0 0)
        { events := ZSOCK_POLLIN ||| ZSOCK_POLLOUT, revents := 0 }
        [{ obj_is_read_sem := true, type := 1, mode := 0, state := 2 }] 0).1.revents &&&
        ZSOCK_POLLOUT ≠ 0 ↔
      ({ events := ZSOCK_POLLIN ||| ZSOCK_POLLOUT, revents := 0 } : Pollfd).events &&&
        ZSOCK_POLLOUT ≠ 0) ∧
    (({ events := ZSOCK_POLLIN ||| ZSOCK_POLLOUT, revents := 0 } : Pollfd).events &&&
        ZSOCK_POLLIN ≠ 0 →
      (((eventfd_poll_update (eventfd_init_obj 0 0)
          { events := ZSOCK_POLLIN ||| ZSOCK_POLLOUT, revents := 0 }
          [{ obj_is_read_sem := true, type := 1, mode := 0, state := 2 }] 0).1.revents &&&
          ZSOCK_POLLIN ≠ 0) ↔
        ([{ obj_is_read_sem := true, type := 1, mode := 0, state := 2 }].getD 0
            pollEventDefault).state ≠ K_POLL_STATE_NOT_READY) ∧
      (eventfd_poll_update (eventfd_init_obj 0 0)
          { events := ZSOCK_POLLIN ||| ZSOCK_POLLOUT, revents := 0 }
          [{ obj_is_read_sem := true, type := 1, mode := 0, state := 2 }] 0).2 = 0 + 1) :=
  poll_update_readiness (eventfd_init_obj 0 0)
    { events := ZSOCK_POLLIN ||| ZSOCK_POLLOUT, revents := 0 }
    [{ obj_is_read_sem := true, type := 1, mode := 0, state := 2 }] 0 rfl

/-- Helper for C5: a single observable transition keeps the counter
strictly below the sentinel. -/
theorem step_cnt_lt_sentinel (efd efd' : Eventfd)
    (h : efd.cnt < UINT64_MAX) (hs : Step efd efd') :
    efd'.cnt < UINT64_MAX := by
  cases hs with
  | read sz =>
      simp only [eventfd_read_op]
      split
      · exact h
      · split
        · split <;> exact h
        · simp only [ReadResult.state]
          exact Nat.lt_of_le_of_lt (Nat.sub_le _ _) h
  | write sz count hcount =>
      simp only [eventfd_write_op]
      split
      · exact h
      · split
        · exact h
        · split
          · exact h
          · split
            · split <;> exact h
            · rename_i hov
              simp only [WriteResult.state]
              show efd.cnt + count < UINT64_MAX
              simp only [UINT64_MAX] at hov ⊢
              omega
  | ioctl req =>
      cases req with
      | f_getfl => exact h
      | f_setfl flags =>
          simp only [eventfd_ioctl_op]
          split <;> exact h
      | close => exact h
      | pollPrepare pfd pev cursor =>
          simp only [eventfd_ioctl_op]
          cases hp : eventfd_poll_prepare efd pfd pev cursor with
          | error e => exact h
          | ok val => exact h
      | pollUpdate pfd pev cursor => exact h
      | unrecognized => exact h

/-- Helper for C5: every reachable state keeps the counter strictly
below the sentinel. -/
theorem reachable_cnt_lt_sentinel (efd : Eventfd) (h : Reachable efd) :
    efd.cnt < UINT64_MAX := by
  induction h with
  | create initval flags efd hinit hcreate =>
      have hcnt : efd.cnt = initval := by
        unfold eventfd_create at hcreate
        split at hcreate
        · simp at hcreate
        · injection hcreate with h'
          subst h'
          rfl
      rw [hcnt]
      simp only [UINT64_MAX]
      omega
  | step efd efd' hreach hs ih => exact step_cnt_lt_sentinel efd efd' ih hs

/-- C5: on every state reachable from a successful create by reads,
writes and control operations, the counter differs from the reserved
sentinel value. -/
theorem counter_never_sentinel (efd : Eventfd) (h : Reachable efd) :
    efd.cnt ≠ UINT64_MAX :=
  Nat.ne_of_lt (reachable_cnt_lt_sentinel efd h)

/-- Witness for C5 at the state reached by `Create(5, 0)` followed by a
successful `Write(7)`. -/
theorem counter_never_sentinel_witness :
    (eventfd_write_op (eventfd_init_obj 5 0) 8 7).state.cnt ≠ UINT64_MAX :=
  counter_never_sentinel (eventfd_write_op (eventfd_init_obj 5 0) 8 7).state
    (Reachable.step (eventfd_init_obj 5 0) _
      (Reachable.create 5 0 (eventfd_init_obj 5 0) (by omega) (by decide))
      (Step.write (eventfd_init_obj 5 0) 8 7 (by omega)))
